import Mathlib

/-!
Verification of the Flogate disaster-relief coordination server against its
natural-language specification.

The development shallowly embeds the parts of the code the claims are about:

* the Drizzle/PostgreSQL schema of the data tables (`shared/schema.ts`),
  with SQL `NULL` modelled by `Option` for every column that is not
  `notNull`, `timestamp` columns as integers, and `decimal` columns as
  rationals;
* the storage layer (`server/storage.ts`): `getDashboardStats`,
  `createReliefDistribution`, `getActiveWeatherAlerts`,
  `deactivateWeatherAlert` and the row-creating operations, as pure
  state-passing functions on an explicit database value, with SQL
  aggregate semantics (`SUM` of an empty or all-`NULL` column is `NULL`,
  `NULL` propagates through arithmetic, division by a zero denominator is
  an error, `ROUND(x, 0)` rounds half away from zero);
* the Express route surface (`server/routes.ts`): the route table and the
  response-status behaviour of each handler shape, and the zod insert
  validators produced by `createInsertSchema` for the create endpoints;
* the Leaflet map wrapper (`flood-map.tsx` / `ui/map.tsx`): the circle
  descriptions rendered for the fetched flood zones.

Row construction performed inside the database on `INSERT ... RETURNING`
(generated ids, `defaultNow()` timestamps, column defaults) is abstracted:
the creating operations take the resulting row as an argument and the
claims are stated about the table mutations.
-/

namespace Flogate

/-! ### JSON values of request bodies -/

/-- A JSON-ish value of a request-body field, as seen by the zod insert
schemas: strings, numbers, booleans, `null`, and `Date` objects (for
`timestamp` columns `createInsertSchema` produces a `z.date()` field). -/
inductive JsonVal
  | jstr (s : String)
  | jnum (n : Int)
  | jbool (b : Bool)
  | jnull
  | jdate (t : Int)
  deriving DecidableEq, Repr

/-! ### Rows of the data tables (`shared/schema.ts`)

Columns without `notNull()` are `Option`-valued (`none` is SQL `NULL`);
`timestamp` columns are instants modelled as integers, `decimal` columns
are rationals, `varchar`/`text` are strings. -/

/-- A row of the `flood_zones` table. -/
structure FloodZoneRow where
  id : String
  name : String
  district : String
  latitude : ℚ
  longitude : ℚ
  riskLevel : String
  radius : Int
  waterLevel : Option ℚ
  dangerMark : Option ℚ
  isActive : Option Bool
  lastUpdated : Option Int
  createdAt : Option Int
  deriving DecidableEq, Repr

/-- A row of the `affected_population` table. -/
structure AffectedPopulationRow where
  id : String
  name : String
  age : Option Int
  gender : Option String
  phoneNumber : Option String
  address : Option String
  latitude : Option ℚ
  longitude : Option ℚ
  floodZoneId : Option String
  evacuationStatus : String
  medicalNeeds : Option String
  familyMembers : Option Int
  registeredBy : Option String
  createdAt : Option Int
  updatedAt : Option Int
  deriving DecidableEq, Repr

/-- A row of the `resources` table. -/
structure ResourceRow where
  id : String
  name : String
  type : String
  unit : String
  totalQuantity : Int
  allocatedQuantity : Option Int
  distributedQuantity : Option Int
  priority : String
  location : Option String
  expiryDate : Option Int
  createdAt : Option Int
  updatedAt : Option Int
  deriving DecidableEq, Repr

/-- A row of the `relief_distribution` table. -/
structure ReliefDistributionRow where
  id : String
  resourceId : String
  floodZoneId : Option String
  quantity : Int
  distributedTo : Option String
  distributedBy : Option String
  distributionDate : Option Int
  recipientCount : Option Int
  notes : Option String
  status : Option String
  createdAt : Option Int
  deriving DecidableEq, Repr

/-- A row of the `weather_alerts` table. -/
structure WeatherAlertRow where
  id : String
  type : String
  severity : String
  title : String
  message : String
  affectedArea : Option String
  validUntil : Option Int
  isActive : Option Bool
  createdBy : Option String
  createdAt : Option Int
  deriving DecidableEq, Repr

/-- A row of the `response_teams` table. -/
structure ResponseTeamRow where
  id : String
  name : String
  type : String
  status : String
  currentLocation : Option String
  assignedZone : Option String
  memberCount : Option Int
  contactNumber : Option String
  leadOfficer : Option String
  createdAt : Option Int
  updatedAt : Option Int
  deriving DecidableEq, Repr

/-- A row of the `activity_log` table (metadata `jsonb` kept abstract as a
string). -/
structure ActivityLogRow where
  id : String
  type : String
  description : String
  entityType : Option String
  entityId : Option String
  performedBy : Option String
  location : Option String
  metadata : Option String
  createdAt : Option Int
  deriving DecidableEq, Repr

/-- The database state: the data tables of the schema (the auth-only
`sessions` and `users` tables carry no claim-relevant state and are not
part of the storage model). -/
structure DB where
  floodZones : List FloodZoneRow
  affectedPopulation : List AffectedPopulationRow
  resources : List ResourceRow
  reliefDistribution : List ReliefDistributionRow
  weatherAlerts : List WeatherAlertRow
  responseTeams : List ResponseTeamRow
  activityLog : List ActivityLogRow
  deriving DecidableEq, Repr

/-- The empty database. -/
def emptyDB : DB :=
  { floodZones := [], affectedPopulation := [], resources := [],
    reliefDistribution := [], weatherAlerts := [], responseTeams := [],
    activityLog := [] }

/-! ### SQL aggregate semantics -/

/-- SQL `SUM` over a column of nullable integers: `NULL` inputs are
ignored, and the sum of no (non-`NULL`) inputs is `NULL`. -/
def sqlSum (xs : List (Option Int)) : Option Int :=
  match xs.filterMap id with
  | [] => none
  | v :: vs => some (v :: vs).sum

/-- SQL addition of a possibly-`NULL` integer and an integer
(`distributed_quantity + quantity`): `NULL` propagates. -/
def sqlAdd (a : Option Int) (q : Int) : Option Int :=
  match a with
  | none => none
  | some v => some (v + q)

/-- PostgreSQL `ROUND(x, 0)` on `numeric`: round to the nearest integer,
ties away from zero. -/
def sqlRound (q : ℚ) : Int :=
  if 0 ≤ q then round q else -round (-q)

/-- SQL comparison `col >= t` on a nullable timestamp column: `NULL` is
not greater-or-equal to anything (the row is filtered out). -/
def sqlGte (x : Option Int) (t : Int) : Bool :=
  match x with
  | none => false
  | some v => decide (t ≤ v)

/-- `ORDER BY created_at DESC` comparison: PostgreSQL sorts `NULL`s first
in descending order, so `NULL` ranks above every value. -/
def createdAtDescLe (x y : Option Int) : Bool :=
  match x, y with
  | none, _ => true
  | some _, none => false
  | some a, some b => decide (b ≤ a)

/-! ### The storage layer (`server/storage.ts`) -/

/-- The value of `getDashboardStats`. -/
structure DashboardStats where
  activeZones : Nat
  affectedPeople : Nat
  reliefDistributed : Option Int
  responseTeams : Nat
  deriving DecidableEq, Repr

/-- The aggregate SQL expression of `getDashboardStats` over the
`resources` table:
`CASE WHEN SUM(total_quantity) = 0 THEN 0
      ELSE ROUND(SUM(distributed_quantity) * 100.0 / SUM(total_quantity), 0)
 END`,
evaluated with SQL semantics: a comparison against `NULL` is not true, a
`NULL` operand propagates through `*` and `/` (so the division is not
performed), and a division by a non-`NULL` zero denominator is an SQL
error (`Except.error`). -/
def reliefPercentageSql (rs : List ResourceRow) : Except Unit (Option Int) :=
  let sumTotal := sqlSum (rs.map fun r => some r.totalQuantity)
  let sumDist := sqlSum (rs.map fun r => r.distributedQuantity)
  if sumTotal = some 0 then .ok (some 0)
  else
    match sumDist, sumTotal with
    | none, _ => .ok none
    | some _, none => .ok none
    | some d, some t =>
      if t = 0 then .error () else .ok (some (sqlRound ((d * 100 : ℚ) / (t : ℚ))))

/-- `DatabaseStorage.getDashboardStats`: count of flood zones with
`is_active = true`, count of `affected_population` rows, the relief
percentage over `resources`, and count of `response_teams` rows.  The
result is an `Except` so that an SQL evaluation error would surface. -/
def getDashboardStats (db : DB) : Except Unit DashboardStats :=
  match reliefPercentageSql db.resources with
  | .error e => .error e
  | .ok p =>
    .ok { activeZones := db.floodZones.countP fun z => z.isActive == some true,
          affectedPeople := db.affectedPopulation.length,
          reliefDistributed := p,
          responseTeams := db.responseTeams.length }

/-- The row transformation of the
`UPDATE resources SET distributed_quantity = distributed_quantity + quantity,
 updated_at = now WHERE id = resource_id` statement of
`createReliefDistribution`. -/
def distributeUpdate (d : ReliefDistributionRow) (now : Int) (r : ResourceRow) :
    ResourceRow :=
  if r.id = d.resourceId then
    { r with distributedQuantity := sqlAdd r.distributedQuantity d.quantity,
             updatedAt := some now }
  else r

/-- `DatabaseStorage.createReliefDistribution`: insert the new
distribution row, then update the resource quantities. -/
def createReliefDistribution (db : DB) (d : ReliefDistributionRow) (now : Int) : DB :=
  { db with
    reliefDistribution := db.reliefDistribution ++ [d],
    resources := db.resources.map (distributeUpdate d now) }

/-- The `WHERE` predicate of `getActiveWeatherAlerts`:
`is_active = true AND valid_until >= now`. -/
def activeAlertPred (now : Int) (a : WeatherAlertRow) : Bool :=
  a.isActive == some true && sqlGte a.validUntil now

/-- `DatabaseStorage.getActiveWeatherAlerts`: the alerts satisfying the
`WHERE` clause, ordered by `created_at DESC`. -/
def getActiveWeatherAlerts (now : Int) (db : DB) : List WeatherAlertRow :=
  (db.weatherAlerts.filter (activeAlertPred now)).mergeSort
    fun a b => createdAtDescLe a.createdAt b.createdAt

/-- `DatabaseStorage.deactivateWeatherAlert`:
`UPDATE weather_alerts SET is_active = false WHERE id = id`. -/
def deactivateWeatherAlert (id : String) (db : DB) : DB :=
  { db with
    weatherAlerts := db.weatherAlerts.map fun a =>
      if a.id = id then { a with isActive := some false } else a }

/-- `DatabaseStorage.createFloodZone`: insert the new row. -/
def createFloodZone (db : DB) (z : FloodZoneRow) : DB :=
  { db with floodZones := db.floodZones ++ [z] }

/-- `DatabaseStorage.createAffectedPerson`: insert the new row. -/
def createAffectedPerson (db : DB) (p : AffectedPopulationRow) : DB :=
  { db with affectedPopulation := db.affectedPopulation ++ [p] }

/-- `DatabaseStorage.createResource`: insert the new row. -/
def createResource (db : DB) (r : ResourceRow) : DB :=
  { db with resources := db.resources ++ [r] }

/-- `DatabaseStorage.createWeatherAlert`: insert the new row. -/
def createWeatherAlert (db : DB) (a : WeatherAlertRow) : DB :=
  { db with weatherAlerts := db.weatherAlerts ++ [a] }

/-- `DatabaseStorage.createResponseTeam`: insert the new row. -/
def createResponseTeam (db : DB) (t : ResponseTeamRow) : DB :=
  { db with responseTeams := db.responseTeams ++ [t] }

/-- A write operation of the storage layer (for reachability of database
states from the empty database). -/
inductive StorageOp
  | addFloodZone (z : FloodZoneRow)
  | addAffectedPerson (p : AffectedPopulationRow)
  | addResource (r : ResourceRow)
  | addReliefDistribution (d : ReliefDistributionRow) (now : Int)
  | addWeatherAlert (a : WeatherAlertRow)
  | removeWeatherAlert (id : String)
  | addResponseTeam (t : ResponseTeamRow)
  deriving Repr

/-- Apply one storage operation. -/
def applyOp (db : DB) : StorageOp → DB
  | .addFloodZone z => createFloodZone db z
  | .addAffectedPerson p => createAffectedPerson db p
  | .addResource r => createResource db r
  | .addReliefDistribution d now => createReliefDistribution db d now
  | .addWeatherAlert a => createWeatherAlert db a
  | .removeWeatherAlert id => deactivateWeatherAlert id db
  | .addResponseTeam t => createResponseTeam db t

/-- Run a sequence of storage operations from the empty database. -/
def runOps (ops : List StorageOp) : DB :=
  ops.foldl applyOp emptyDB

/-! ### The REST surface (`server/routes.ts`) -/

/-- HTTP methods used by `registerRoutes`. -/
inductive Method
  | GET
  | POST
  | PATCH
  | DELETE
  deriving DecidableEq, Repr

/-- The failure-handling shape of a route handler:

* `plain`: `try { ... res.json(value) } catch { 500 }`;
* `patchShape`: as `plain`, but responding `404` when the updated row does
  not exist;
* `weatherShape`: the `GET /api/weather/:location` handler (early `500`
  when no API key is configured, `500` when the external call fails). -/
inductive HandlerShape
  | plain
  | patchShape
  | weatherShape
  deriving DecidableEq, Repr

/-- One registered route. -/
structure RouteEntry where
  method : Method
  path : String
  shape : HandlerShape
  deriving DecidableEq, Repr

/-- The routes registered by `registerRoutes`, in source order. -/
def routeTable : List RouteEntry :=
  [ ⟨.GET, "/api/auth/user", .plain⟩,
    ⟨.GET, "/api/dashboard/stats", .plain⟩,
    ⟨.GET, "/api/flood-zones", .plain⟩,
    ⟨.POST, "/api/flood-zones", .plain⟩,
    ⟨.PATCH, "/api/flood-zones/:id", .patchShape⟩,
    ⟨.GET, "/api/population", .plain⟩,
    ⟨.POST, "/api/population", .plain⟩,
    ⟨.PATCH, "/api/population/:id", .patchShape⟩,
    ⟨.GET, "/api/resources", .plain⟩,
    ⟨.POST, "/api/resources", .plain⟩,
    ⟨.PATCH, "/api/resources/:id", .patchShape⟩,
    ⟨.GET, "/api/relief-distribution", .plain⟩,
    ⟨.POST, "/api/relief-distribution", .plain⟩,
    ⟨.GET, "/api/weather-alerts", .plain⟩,
    ⟨.POST, "/api/weather-alerts", .plain⟩,
    ⟨.DELETE, "/api/weather-alerts/:id", .plain⟩,
    ⟨.GET, "/api/response-teams", .plain⟩,
    ⟨.POST, "/api/response-teams", .plain⟩,
    ⟨.PATCH, "/api/response-teams/:id", .patchShape⟩,
    ⟨.GET, "/api/activities", .plain⟩,
    ⟨.GET, "/api/weather/:location", .weatherShape⟩ ]

/-- The (method, path) pairs of the REST surface. -/
def routes : List (Method × String) :=
  routeTable.map fun e => (e.method, e.path)

/-- Whether a route with the given method and path is registered. -/
def hasRoute (m : Method) (p : String) : Bool :=
  routes.contains (m, p)

/-- The eight data tables of the schema (`sessions` is auth plumbing, not
a data table). -/
inductive DataTable
  | users
  | floodZones
  | affectedPopulation
  | resources
  | reliefDistribution
  | weatherAlerts
  | responseTeams
  | activityLog
  deriving DecidableEq, Repr

/-- The REST collection path serving each data table, when one exists
(`users` has no collection endpoint, only `GET /api/auth/user`). -/
def tableListPath : DataTable → Option String
  | .users => none
  | .floodZones => some "/api/flood-zones"
  | .affectedPopulation => some "/api/population"
  | .resources => some "/api/resources"
  | .reliefDistribution => some "/api/relief-distribution"
  | .weatherAlerts => some "/api/weather-alerts"
  | .responseTeams => some "/api/response-teams"
  | .activityLog => some "/api/activities"

/-- Whether the REST surface has the full GET list / POST create /
PATCH update triple for a data table. -/
def hasCrudTriple (t : DataTable) : Bool :=
  match tableListPath t with
  | none => false
  | some base =>
    hasRoute .GET base && hasRoute .POST base && hasRoute .PATCH (base ++ "/:id")

/-- An HTTP response of a route handler: a 200 JSON payload, or a failure
status with a JSON error message. -/
inductive ApiResult (α : Type)
  | okJson (a : α)
  | err (status : Nat) (msg : String)
  deriving DecidableEq, Repr

/-- The HTTP status of a response (`res.json(x)` responds 200). -/
def ApiResult.statusCode : ApiResult α → Nat
  | .okJson _ => 200
  | .err s _ => s

/-- A `plain`-shaped GET handler: the `try`-block outcome is either the
fetched value or a raised error; any raised error is answered with
`500` and a JSON message. -/
def listRoute (failMsg : String) (outcome : Except Unit α) : ApiResult α :=
  match outcome with
  | .ok a => .okJson a
  | .error _ => .err 500 failMsg

/-- A `plain`-shaped POST handler: schema validation and then the create
call (with its activity logging) run inside one `try`; a validation
failure or any raised error is answered with `500`. -/
def createRoute (failMsg : String) (parsed : Except Unit α)
    (create : α → Except Unit β) : ApiResult β :=
  match parsed with
  | .error _ => .err 500 failMsg
  | .ok a =>
    match create a with
    | .error _ => .err 500 failMsg
    | .ok b => .okJson b

/-- A PATCH handler: a raised error is answered with `500`; an update
that matched no row (the storage returned `undefined`) is answered with
`404`; otherwise the updated row is returned. -/
def patchRoute (failMsg notFoundMsg : String)
    (outcome : Except Unit (Option α)) : ApiResult α :=
  match outcome with
  | .error _ => .err 500 failMsg
  | .ok none => .err 404 notFoundMsg
  | .ok (some a) => .okJson a

/-! ### The weather proxy (`GET /api/weather/:location`) -/

/-- The `main` object of an OpenWeatherMap response. -/
structure OWMain where
  temp : ℚ
  humidity : ℚ
  pressure : ℚ
  deriving DecidableEq, Repr

/-- One entry of the `weather` array of an OpenWeatherMap response. -/
structure OWWeatherItem where
  description : String
  deriving DecidableEq, Repr

/-- The `wind` object of an OpenWeatherMap response. -/
structure OWWind where
  speed : ℚ
  deriving DecidableEq, Repr

/-- The parsed JSON of an OpenWeatherMap response. -/
structure OWResponse where
  main : OWMain
  weather : List OWWeatherItem
  wind : OWWind
  deriving DecidableEq, Repr

/-- The reshaped weather object the route responds with — exactly the
five fields `temperature`, `humidity`, `description`, `windSpeed`,
`pressure`. -/
structure WeatherOut where
  temperature : ℚ
  humidity : ℚ
  description : String
  windSpeed : ℚ
  pressure : ℚ
  deriving DecidableEq, Repr

/-- The `GET /api/weather/:location` handler.  `apiKey` is
`process.env.OPENWEATHER_API_KEY`; `fetched` is the outcome of the single
`fetch` to the OpenWeatherMap API (`Except.error` covers a network
failure and a non-`ok` HTTP status, both of which end in the `catch`).
The second component counts the external HTTP calls performed.  An
OpenWeatherMap payload with an empty `weather` array makes
`weatherData.weather[0].description` throw, which the `catch` turns into
a `500`. -/
def weatherRoute (apiKey : Option String) (fetched : Except Unit OWResponse) :
    ApiResult WeatherOut × Nat :=
  match apiKey with
  | none => (.err 500 "Weather API key not configured", 0)
  | some _ =>
    match fetched with
    | .error _ => (.err 500 "Failed to fetch weather data", 1)
    | .ok w =>
      match w.weather with
      | [] => (.err 500 "Failed to fetch weather data", 1)
      | d :: _ =>
        (.okJson { temperature := w.main.temp, humidity := w.main.humidity,
                   description := d.description, windSpeed := w.wind.speed,
                   pressure := w.main.pressure }, 1)

/-! ### The zod insert validators (`createInsertSchema`, `shared/schema.ts`)

`createInsertSchema` derives one zod field per column: a `notNull()`
column without a default gives a required field, a column with a database
default gives an optional field, and a nullable column additionally
accepts `null`.  The zod type of a field is determined by the column type
alone — `varchar`/`text`/`decimal` give `z.string()`, `integer` gives
`z.number()`, `boolean` gives `z.boolean()`, `timestamp` gives
`z.date()`.  No enumerated-value restriction is derived: the enumerated
sets in the schema exist only as comments. -/

/-- A request body: JSON field assignments. -/
def RequestBody : Type := List (String × JsonVal)

/-- Look up a field of a request body. -/
def getField (body : RequestBody) (k : String) : Option JsonVal :=
  body.lookup k

/-- A required `z.string()` field. -/
def reqString (body : RequestBody) (k : String) : Except Unit String :=
  match getField body k with
  | some (.jstr s) => .ok s
  | _ => .error ()

/-- A required `z.number()` field. -/
def reqNumber (body : RequestBody) (k : String) : Except Unit Int :=
  match getField body k with
  | some (.jnum n) => .ok n
  | _ => .error ()

/-- An optional, nullable `z.string()` field (absent and `null` both
parse to no value). -/
def optString (body : RequestBody) (k : String) : Except Unit (Option String) :=
  match getField body k with
  | none => .ok none
  | some .jnull => .ok none
  | some (.jstr s) => .ok (some s)
  | some _ => .error ()

/-- An optional, nullable `z.number()` field. -/
def optNumber (body : RequestBody) (k : String) : Except Unit (Option Int) :=
  match getField body k with
  | none => .ok none
  | some .jnull => .ok none
  | some (.jnum n) => .ok (some n)
  | some _ => .error ()

/-- An optional, nullable `z.boolean()` field. -/
def optBool (body : RequestBody) (k : String) : Except Unit (Option Bool) :=
  match getField body k with
  | none => .ok none
  | some .jnull => .ok none
  | some (.jbool b) => .ok (some b)
  | some _ => .error ()

/-- An optional, nullable `z.date()` field. -/
def optDate (body : RequestBody) (k : String) : Except Unit (Option Int) :=
  match getField body k with
  | none => .ok none
  | some .jnull => .ok none
  | some (.jdate t) => .ok (some t)
  | some _ => .error ()

/-- The value parsed by `insertFloodZoneSchema` (after
`.omit(\x7b id, lastUpdated, createdAt \x7d)`; `decimal` columns are
string-typed in drizzle). -/
structure InsertFloodZone where
  name : String
  district : String
  latitude : String
  longitude : String
  riskLevel : String
  radius : Int
  waterLevel : Option String
  dangerMark : Option String
  isActive : Option Bool
  deriving DecidableEq, Repr

/-- `insertFloodZoneSchema.parse`: required `name`, `district`,
`latitude`, `longitude`, `riskLevel` strings and `radius` number;
optional nullable `waterLevel`, `dangerMark` strings and `isActive`
boolean.  `riskLevel` is checked as a plain string. -/
def parseInsertFloodZone (body : RequestBody) : Except Unit InsertFloodZone := do
  let name ← reqString body "name"
  let district ← reqString body "district"
  let latitude ← reqString body "latitude"
  let longitude ← reqString body "longitude"
  let riskLevel ← reqString body "riskLevel"
  let radius ← reqNumber body "radius"
  let waterLevel ← optString body "waterLevel"
  let dangerMark ← optString body "dangerMark"
  let isActive ← optBool body "isActive"
  .ok { name, district, latitude, longitude, riskLevel, radius,
        waterLevel, dangerMark, isActive }

/-- The value parsed by `insertResourceSchema` (after
`.omit(\x7b id, createdAt, updatedAt \x7d)`). -/
structure InsertResource where
  name : String
  type : String
  unit : String
  totalQuantity : Int
  allocatedQuantity : Option Int
  distributedQuantity : Option Int
  priority : String
  location : Option String
  expiryDate : Option Int
  deriving DecidableEq, Repr

/-- `insertResourceSchema.parse`: required `name`, `type`, `unit`,
`priority` strings and `totalQuantity` number; optional nullable
`allocatedQuantity`, `distributedQuantity` numbers, `location` string and
`expiryDate` date.  `type` and `priority` are checked as plain strings. -/
def parseInsertResource (body : RequestBody) : Except Unit InsertResource := do
  let name ← reqString body "name"
  let type ← reqString body "type"
  let unit ← reqString body "unit"
  let totalQuantity ← reqNumber body "totalQuantity"
  let allocatedQuantity ← optNumber body "allocatedQuantity"
  let distributedQuantity ← optNumber body "distributedQuantity"
  let priority ← reqString body "priority"
  let location ← optString body "location"
  let expiryDate ← optDate body "expiryDate"
  .ok { name, type, unit, totalQuantity, allocatedQuantity,
        distributedQuantity, priority, location, expiryDate }

/-- The `POST /api/flood-zones` handler as a status: the body is parsed
by `insertFloodZoneSchema` and the zone is created; a validation failure
or a raised storage error is caught and answered with `500`. -/
def postFloodZoneStatus (body : RequestBody) (storageFails : Bool) : Nat :=
  match parseInsertFloodZone body with
  | .error _ => 500
  | .ok _ => if storageFails then 500 else 200

/-- The `POST /api/resources` handler as a status. -/
def postResourceStatus (body : RequestBody) (storageFails : Bool) : Nat :=
  match parseInsertResource body with
  | .error _ => 500
  | .ok _ => if storageFails then 500 else 200

/-! ### The Leaflet map wrapper (`flood-map.tsx`, `ui/map.tsx`) -/

/-- `getRiskColor` of `FloodMap` (the hex colors are red, orange, green
and gray — the names recorded in the source comments). -/
def getRiskColor (riskLevel : String) : String :=
  if riskLevel = "high" then "#dc2626"
  else if riskLevel = "medium" then "#ea580c"
  else if riskLevel = "low" then "#16a34a"
  else "#6b7280"

/-- The props of one rendered `MapCircle` (`L.circle` receives `center`,
`radius`, `color`, `fillColor`, `fillOpacity`). -/
structure MapCircleProps where
  centerLat : ℚ
  centerLng : ℚ
  radius : Int
  color : String
  fillColor : String
  fillOpacity : ℚ
  deriving DecidableEq, Repr

/-- The circles `FloodMap` renders: one `MapCircle` per fetched flood
zone, centered at the zone's stored coordinates (`parseFloat` of the
stored decimal string) with the zone's stored radius, colored by
`getRiskColor` of the zone's risk level (used for both `color` and
`fillColor`), with `fillOpacity` 0.3. -/
def floodMapCircles (zones : List FloodZoneRow) : List MapCircleProps :=
  zones.map fun z =>
    { centerLat := z.latitude, centerLng := z.longitude, radius := z.radius,
      color := getRiskColor z.riskLevel, fillColor := getRiskColor z.riskLevel,
      fillOpacity := 3 / 10 }

/-! ### Concrete example data -/

/-- A resource with 10 units in stock and 0 distributed. -/
def exResource : ResourceRow :=
  { id := "r1", name := "Rice", type := "food", unit := "packets",
    totalQuantity := 10, allocatedQuantity := some 0, distributedQuantity := some 0,
    priority := "high", location := some "Central Store", expiryDate := none,
    createdAt := some 0, updatedAt := some 0 }

/-- A distribution of 20 units of resource `r1` (twice its stock). -/
def exDistribution : ReliefDistributionRow :=
  { id := "d1", resourceId := "r1", floodZoneId := none, quantity := 20,
    distributedTo := some "Shelter A", distributedBy := none,
    distributionDate := some 1, recipientCount := none, notes := none,
    status := some "completed", createdAt := some 1 }

/-- `exResource` after `exDistribution` is recorded. -/
def exResourceAfter : ResourceRow :=
  { exResource with distributedQuantity := some 20, updatedAt := some 1 }

/-- Create `exResource`, then distribute 20 of its 10 units. -/
def opsC9 : List StorageOp :=
  [.addResource exResource, .addReliefDistribution exDistribution 1]

/-- A resource whose `distributed_quantity` is SQL `NULL` (reachable: the
column is nullable and the zod insert schema accepts an explicit
`null`). -/
def resourceNullDist : ResourceRow :=
  { exResource with distributedQuantity := none }

/-- A distribution of 5 units of resource `r1`. -/
def distFive : ReliefDistributionRow :=
  { exDistribution with id := "d2", quantity := 5 }

/-- A database holding only `resourceNullDist`. -/
def dbNullDist : DB := { emptyDB with resources := [resourceNullDist] }

/-- `resourceNullDist` after `distFive` is recorded: the `NULL`
`distributed_quantity` stays `NULL` under SQL addition. -/
def resourceNullDistAfter : ResourceRow :=
  { resourceNullDist with updatedAt := some 7 }

/-- An active weather alert still valid at time 10. -/
def alertFresh : WeatherAlertRow :=
  { id := "a1", type := "flood_warning", severity := "high", title := "Flood",
    message := "Evacuate low areas", affectedArea := some "Kuttanad",
    validUntil := some 100, isActive := some true, createdBy := none,
    createdAt := some 5 }

/-- An active weather alert already expired at time 10. -/
def alertStale : WeatherAlertRow :=
  { alertFresh with id := "a2", validUntil := some 1, createdAt := some 9 }

/-- A database holding the two alerts. -/
def dbAlerts : DB := { emptyDB with weatherAlerts := [alertFresh, alertStale] }

/-- A well-formed OpenWeatherMap payload. -/
def exOWResponse : OWResponse :=
  { main := { temp := 30, humidity := 80, pressure := 1005 },
    weather := [{ description := "light rain" }],
    wind := { speed := 4 } }

/-- A flood-zone creation body that is valid except that its `riskLevel`
is an arbitrary string. -/
def fzBody (riskLevel : String) : RequestBody :=
  [("name", .jstr "Zone A"), ("district", .jstr "Alappuzha"),
   ("latitude", .jstr "9.5"), ("longitude", .jstr "76.3"),
   ("riskLevel", .jstr riskLevel), ("radius", .jnum 500)]

/-- A resource creation body carrying only a `name`. -/
def nameOnlyBody : RequestBody := [("name", .jstr "Rice")]

/-- The result flood zone parsed from `fzBody riskLevel`. -/
def fzParsed (riskLevel : String) : InsertFloodZone :=
  { name := "Zone A", district := "Alappuzha", latitude := "9.5",
    longitude := "76.3", riskLevel := riskLevel, radius := 500,
    waterLevel := none, dangerMark := none, isActive := none }

/-- A high-risk flood zone. -/
def exZone : FloodZoneRow :=
  { id := "z1", name := "Kuttanad", district := "Alappuzha", latitude := 9,
    longitude := 76, riskLevel := "high", radius := 500, waterLevel := none,
    dangerMark := none, isActive := some true, lastUpdated := some 0,
    createdAt := some 0 }

/-! ### Specification-level definitions used to state the claims -/

/-- The relief percentage as the (amended) specification describes it:
`NULL` on an empty `resources` table; `0` when the table is non-empty and
the total quantities sum to `0`; `NULL` when every `distributed_quantity`
is `NULL` and the totals sum to a nonzero value; otherwise the sum of the
non-`NULL` distributed quantities times 100 over the sum of the total
quantities, rounded to the nearest integer. -/
def reliefPctSpec (rs : List ResourceRow) : Option Int :=
  if rs.isEmpty then none
  else
    let t := (rs.map fun r => r.totalQuantity).sum
    if t = 0 then some 0
    else
      match rs.filterMap (fun r => r.distributedQuantity) with
      | [] => none
      | d :: ds => some (sqlRound ((((d :: ds).sum : Int) * 100 : ℚ) / (t : ℚ)))

/-! ### Helper lemmas -/

/-- `sqlSum` unfolded through the `filterMap`. -/
lemma sqlSum_eq (xs : List (Option Int)) :
    sqlSum xs = if xs.filterMap id = [] then none else some (xs.filterMap id).sum := by
  cases h : xs.filterMap id with
  | nil => simp [sqlSum, h]
  | cons v vs => simp [sqlSum, h]

/-- Mapping `some` of a function over a list and filtering the `none`s
out is mapping the function. -/
lemma filterMap_id_map_some {α : Type} (f : α → Int) (l : List α) :
    (l.map fun x => some (f x)).filterMap id = l.map f := by
  induction l with
  | nil => rfl
  | cons a t ih => simp only [List.map_cons, List.filterMap_cons, id, ih]

/-- Filtering the `none`s out of a mapped list of options. -/
lemma filterMap_id_map {α : Type} (f : α → Option Int) (l : List α) :
    (l.map f).filterMap id = l.filterMap f := by
  induction l with
  | nil => rfl
  | cons a t ih =>
    cases h : f a <;>
      simp only [List.map_cons, List.filterMap_cons, h, id, ih]

/-- The SQL evaluation of the dashboard percentage agrees with its
specification-level description (in particular it never raises the
division-by-zero error). -/
lemma reliefPercentageSql_eq_spec (rs : List ResourceRow) :
    reliefPercentageSql rs = .ok (reliefPctSpec rs) := by
  cases rs with
  | nil => rfl
  | cons r rest =>
    have e1 : sqlSum ((r :: rest).map fun x => some x.totalQuantity) =
        some (((r :: rest).map fun x => x.totalQuantity).sum) := by
      rw [sqlSum_eq,
        filterMap_id_map_some (fun x : ResourceRow => x.totalQuantity) (r :: rest),
        if_neg (by simp)]
    cases hd : (r :: rest).filterMap fun x => x.distributedQuantity with
    | nil =>
      have e2 : sqlSum ((r :: rest).map fun x => x.distributedQuantity) = none := by
        rw [sqlSum_eq,
          filterMap_id_map (fun x : ResourceRow => x.distributedQuantity) (r :: rest),
          hd]
        rfl
      by_cases ht : ((r :: rest).map fun x => x.totalQuantity).sum = 0
      · simp only [reliefPercentageSql, reliefPctSpec, e1, e2, ht, List.isEmpty_cons,
          Bool.false_eq_true, if_false, if_true, hd]
      · have hne : ¬ ((some (((r :: rest).map fun x => x.totalQuantity).sum) : Option Int)
            = some 0) := by simpa using ht
        simp only [reliefPercentageSql, reliefPctSpec, e1, e2, List.isEmpty_cons,
          Bool.false_eq_true, if_false, hd, if_neg hne, if_neg ht]
    | cons d ds =>
      have e2 : sqlSum ((r :: rest).map fun x => x.distributedQuantity) =
          some ((d :: ds).sum) := by
        rw [sqlSum_eq,
          filterMap_id_map (fun x : ResourceRow => x.distributedQuantity) (r :: rest),
          hd]
        rfl
      by_cases ht : ((r :: rest).map fun x => x.totalQuantity).sum = 0
      · simp only [reliefPercentageSql, reliefPctSpec, e1, e2, ht, List.isEmpty_cons,
          Bool.false_eq_true, if_false, if_true, hd]
      · have hne : ¬ ((some (((r :: rest).map fun x => x.totalQuantity).sum) : Option Int)
            = some 0) := by simpa using ht
        simp only [reliefPercentageSql, reliefPctSpec, e1, e2, List.isEmpty_cons,
          Bool.false_eq_true, if_false, hd, if_neg hne, if_neg ht]

/-- Zipping a mapped list with the original pairs each element with its
image. -/
lemma zip_map_eq {α : Type} (f : α → α) (l : List α) :
    ∀ p ∈ (l.map f).zip l, p.1 = f p.2 := by
  induction l with
  | nil => intro p hp; simp at hp
  | cons a t ih =>
    intro p hp
    rw [List.map_cons, List.zip_cons_cons] at hp
    rcases List.mem_cons.mp hp with h | h
    · rw [h]
    · exact ih p h

/-- `sqlRound` returns a nearest integer: it differs from its argument by
at most one half. -/
lemma sqlRound_nearest (q : ℚ) : |(sqlRound q : ℚ) - q| ≤ 1 / 2 := by
  unfold sqlRound
  split
  · rw [abs_sub_comm]
    exact abs_sub_round q
  · push_cast
    rw [show -(round (-q) : ℚ) - q = -((round (-q) : ℚ) - -q) by ring, abs_neg,
      abs_sub_comm]
    exact abs_sub_round (-q)

/-- `createdAtDescLe` is transitive. -/
lemma createdAtDescLe_trans (a b c : Option Int) (h1 : createdAtDescLe a b = true)
    (h2 : createdAtDescLe b c = true) : createdAtDescLe a c = true := by
  cases a <;> cases b <;> cases c <;> (simp [createdAtDescLe] at *; try omega)

/-- `createdAtDescLe` is total. -/
lemma createdAtDescLe_total (a b : Option Int) :
    (createdAtDescLe a b || createdAtDescLe b a) = true := by
  cases a <;> cases b <;> (simp [createdAtDescLe]; try omega)

/-- The `WHERE` predicate of `getActiveWeatherAlerts`, in propositional
form. -/
lemma activeAlertPred_iff (now : Int) (a : WeatherAlertRow) :
    activeAlertPred now a = true ↔
      (a.isActive = some true ∧ ∃ v : Int, a.validUntil = some v ∧ now ≤ v) := by
  cases hv : a.validUntil with
  | none => simp [activeAlertPred, sqlGte, hv]
  | some v => simp [activeAlertPred, sqlGte, hv]

/-- Membership in `getActiveWeatherAlerts`. -/
lemma mem_getActiveWeatherAlerts (now : Int) (db : DB) (a : WeatherAlertRow) :
    a ∈ getActiveWeatherAlerts now db ↔
      (a ∈ db.weatherAlerts ∧ a.isActive = some true ∧
       ∃ v : Int, a.validUntil = some v ∧ now ≤ v) := by
  unfold getActiveWeatherAlerts
  rw [List.Perm.mem_iff (List.mergeSort_perm _ _), List.mem_filter,
    activeAlertPred_iff]

/-- The result of `getActiveWeatherAlerts` is sorted by `created_at`
descending (`NULL`s first). -/
lemma getActiveWeatherAlerts_sorted (now : Int) (db : DB) :
    List.Pairwise (fun a b : WeatherAlertRow =>
      createdAtDescLe a.createdAt b.createdAt = true)
      (getActiveWeatherAlerts now db) := by
  unfold getActiveWeatherAlerts
  refine List.sorted_mergeSort ?_ ?_ _
  · intro a b c hab hbc
    exact createdAtDescLe_trans _ _ _ hab hbc
  · intro a b
    exact createdAtDescLe_total _ _

/-- After `deactivateWeatherAlert id` every row with that id is
inactive. -/
lemma deactivate_sets_false (id : String) (db : DB) :
    ∀ a ∈ (deactivateWeatherAlert id db).weatherAlerts,
      a.id = id → a.isActive = some false := by
  intro a ha hid
  obtain ⟨b, hb, hfb⟩ := List.mem_map.mp ha
  by_cases h : b.id = id
  · rw [← hfb]
    simp [h]
  · rw [if_neg h] at hfb
    rw [← hfb] at hid
    exact absurd hid h

/-- `deactivateWeatherAlert` on an id matching no row changes nothing. -/
lemma deactivate_no_match (id : String) (db : DB)
    (h : ∀ a ∈ db.weatherAlerts, a.id ≠ id) : deactivateWeatherAlert id db = db := by
  unfold deactivateWeatherAlert
  have hmap : db.weatherAlerts.map
      (fun a => if a.id = id then { a with isActive := some false } else a)
      = db.weatherAlerts := by
    conv_rhs => rw [← List.map_id db.weatherAlerts]
    apply List.map_congr_left
    intro a ha
    rw [if_neg (h a ha)]
    rfl
  rw [hmap]

/-- A deactivated id is not returned by a subsequent
`getActiveWeatherAlerts`. -/
lemma deactivate_not_active (id : String) (db : DB) (now : Int)
    (a : WeatherAlertRow)
    (ha : a ∈ getActiveWeatherAlerts now (deactivateWeatherAlert id db)) :
    a.id ≠ id := by
  intro hid
  have h2 := (mem_getActiveWeatherAlerts now (deactivateWeatherAlert id db) a).mp ha
  have h3 := deactivate_sets_false id db a h2.1 hid
  have h4 := h2.2.1
  rw [h3] at h4
  simp at h4

/-! ### The claims -/

/-- C1: `getDashboardStats` returns exactly four aggregate values
computed from the stored tables: the number of flood-zone rows with
`isActive = true`, the total number of affected-population rows, a
distributed/total percentage aggregated over all resource rows, and the
total number of response-team rows. -/
theorem getDashboardStats_four_aggregates (db : DB) :
    getDashboardStats db =
      .ok { activeZones := (db.floodZones.filter fun z => z.isActive == some true).length,
            affectedPeople := db.affectedPopulation.length,
            reliefDistributed := reliefPctSpec db.resources,
            responseTeams := db.responseTeams.length } := by
  simp [getDashboardStats, reliefPercentageSql_eq_spec, List.countP_eq_length_filter]

/-- C2 (counterexample): on an empty `resources` table the sum of
`totalQuantity` over all rows is `0`, yet `reliefDistributed` is SQL
`NULL` — not `0` as the claim states — because `SUM` of no rows is
`NULL` and the `CASE WHEN SUM(total_quantity) = 0` guard is not
satisfied by `NULL`. -/
theorem reliefDistributed_empty_table_counterexample :
    (([] : List ResourceRow).map fun r => r.totalQuantity).sum = 0 ∧
    reliefPercentageSql [] = .ok none ∧
    getDashboardStats emptyDB =
      .ok { activeZones := 0, affectedPeople := 0,
            reliefDistributed := none, responseTeams := 0 } ∧
    (none : Option Int) ≠ some 0 :=
  ⟨rfl, rfl, rfl, by simp⟩

/-- C2 (amended): `reliefDistributed` is SQL `NULL` on an empty
`resources` table; on a non-empty table it is `0` when the
`totalQuantity` column sums to `0`, `NULL` when the totals sum to a
nonzero value but every `distributedQuantity` is `NULL`, and otherwise
the sum of the non-`NULL` `distributedQuantity` values times 100 over
the sum of `totalQuantity`, rounded to the nearest integer (ties away
from zero); the division is never performed with a zero denominator (the
SQL evaluation never reaches its error case). -/
theorem reliefDistributed_value_characterization :
    (∀ rs : List ResourceRow, reliefPercentageSql rs = .ok (reliefPctSpec rs)) ∧
    (∀ q : ℚ, |(sqlRound q : ℚ) - q| ≤ 1 / 2) :=
  ⟨reliefPercentageSql_eq_spec, sqlRound_nearest⟩

/-- C9: `createReliefDistribution` performs no stock-availability check:
running it with a quantity of 20 against a freshly created resource with
a stock of 10 is a reachable operation sequence after which the
resource's `distributedQuantity` (20) exceeds its `totalQuantity` (10),
and `getDashboardStats` reports a `reliefDistributed` percentage of 200,
which exceeds 100. -/
theorem createReliefDistribution_no_stock_check :
    ∃ ops : List StorageOp, ∃ r : ResourceRow, ∃ stats : DashboardStats,
      r ∈ (runOps ops).resources ∧
      (∃ dq : Int, r.distributedQuantity = some dq ∧ r.totalQuantity < dq) ∧
      getDashboardStats (runOps ops) = .ok stats ∧
      (∃ p : Int, stats.reliefDistributed = some p ∧ 100 < p) := by
  refine ⟨opsC9, exResourceAfter,
    { activeZones := 0, affectedPeople := 0, reliefDistributed := some 200,
      responseTeams := 0 }, ?_, ⟨20, rfl, by decide⟩, ?_, ⟨200, rfl, by norm_num⟩⟩
  · show exResourceAfter ∈ [exResourceAfter]
    exact List.mem_singleton.mpr rfl
  · have hrun : runOps opsC9 =
        { emptyDB with resources := [exResourceAfter],
                       reliefDistribution := [exDistribution] } := rfl
    have hp : reliefPercentageSql [exResourceAfter] = .ok (some 200) := by
      rw [reliefPercentageSql_eq_spec]
      have : reliefPctSpec [exResourceAfter] = some 200 := by
        simp only [reliefPctSpec, exResourceAfter, exResource, List.isEmpty_cons,
          Bool.false_eq_true, if_false, List.map_cons, List.map_nil, List.sum_cons,
          List.sum_nil, List.filterMap_cons, List.filterMap_nil]
        norm_num [sqlRound, round_eq]
      rw [this]
    rw [hrun]
    simp only [getDashboardStats, hp]
    rfl

/-- C3 (counterexample): a resource whose stored `distributedQuantity` is
SQL `NULL` violates the claim — `createReliefDistribution` with a
quantity of 5 leaves its `distributedQuantity` unchanged (`NULL`), so
the quantity is not added under any reading. -/
theorem createReliefDistribution_null_counterexample :
    dbNullDist.resources.map (fun r => (r.id, r.distributedQuantity)) = [("r1", none)] ∧
    distFive.resourceId = "r1" ∧ distFive.quantity = 5 ∧
    (createReliefDistribution dbNullDist distFive 7).resources = [resourceNullDistAfter] ∧
    resourceNullDistAfter.distributedQuantity = none ∧
    ∀ v : Int, (none : Option Int) ≠ some (v + 5) :=
  ⟨rfl, rfl, rfl, rfl, rfl, fun _ => by simp⟩

/-- C3 (amended): `createReliefDistribution` appends the new distribution
row and touches no table other than `resources`; in `resources`, every
row whose `id` differs from the distribution's `resourceId` is unchanged,
and a row whose `id` matches gets `updatedAt` refreshed and its
`distributedQuantity` replaced by the SQL sum
`distributed_quantity + quantity` (the quantity is added when the stored
value is non-`NULL`; a `NULL` stored value stays `NULL`), with every
other field of that row unchanged. -/
theorem createReliefDistribution_frame (db : DB) (d : ReliefDistributionRow) (now : Int) :
    (createReliefDistribution db d now).reliefDistribution = db.reliefDistribution ++ [d] ∧
    (createReliefDistribution db d now).floodZones = db.floodZones ∧
    (createReliefDistribution db d now).affectedPopulation = db.affectedPopulation ∧
    (createReliefDistribution db d now).weatherAlerts = db.weatherAlerts ∧
    (createReliefDistribution db d now).responseTeams = db.responseTeams ∧
    (createReliefDistribution db d now).activityLog = db.activityLog ∧
    (createReliefDistribution db d now).resources.length = db.resources.length ∧
    ∀ p : ResourceRow × ResourceRow,
      p ∈ (createReliefDistribution db d now).resources.zip db.resources →
      ((p.2.id = d.resourceId →
          p.1.distributedQuantity = sqlAdd p.2.distributedQuantity d.quantity ∧
          p.1.updatedAt = some now ∧ p.1.id = p.2.id ∧ p.1.name = p.2.name ∧
          p.1.type = p.2.type ∧ p.1.unit = p.2.unit ∧
          p.1.totalQuantity = p.2.totalQuantity ∧
          p.1.allocatedQuantity = p.2.allocatedQuantity ∧
          p.1.priority = p.2.priority ∧ p.1.location = p.2.location ∧
          p.1.expiryDate = p.2.expiryDate ∧ p.1.createdAt = p.2.createdAt) ∧
       (p.2.id ≠ d.resourceId → p.1 = p.2)) := by
  refine ⟨rfl, rfl, rfl, rfl, rfl, rfl, by simp [createReliefDistribution], ?_⟩
  intro p hp
  have h1 := zip_map_eq (distributeUpdate d now) db.resources p hp
  constructor
  · intro hid
    rw [h1]
    unfold distributeUpdate
    rw [if_pos hid]
    exact ⟨rfl, rfl, rfl, rfl, rfl, rfl, rfl, rfl, rfl, rfl, rfl, rfl⟩
  · intro hne
    rw [h1]
    unfold distributeUpdate
    rw [if_neg hne]

/-- C3 (witness): the frame theorem applied to the concrete database
holding `resourceNullDist` and the concrete distribution `distFive`. -/
theorem createReliefDistribution_frame_witness :
    (createReliefDistribution dbNullDist distFive 7).reliefDistribution
        = dbNullDist.reliefDistribution ++ [distFive] ∧
    resourceNullDistAfter.distributedQuantity
        = sqlAdd resourceNullDist.distributedQuantity distFive.quantity ∧
    resourceNullDistAfter.updatedAt = some 7 ∧
    resourceNullDistAfter.totalQuantity = resourceNullDist.totalQuantity := by
  have T := createReliefDistribution_frame dbNullDist distFive 7
  have hmem : (resourceNullDistAfter, resourceNullDist)
      ∈ (createReliefDistribution dbNullDist distFive 7).resources.zip
          dbNullDist.resources := by decide
  have hrow := (T.2.2.2.2.2.2.2 (resourceNullDistAfter, resourceNullDist) hmem).1
    (by decide)
  exact ⟨T.1, hrow.1, hrow.2.1, hrow.2.2.2.2.2.2.1⟩

/-- C10: `getActiveWeatherAlerts` returns exactly the alerts with
`isActive = true` whose `validUntil` is not earlier than the current
time, ordered by creation time descending; after
`deactivateWeatherAlert id`, every alert with that id has
`isActive = false` and is never returned by a subsequent
`getActiveWeatherAlerts`; deactivating an id matching no alert completes
(the operation is total) and changes no row. -/
theorem weatherAlerts_lifecycle :
    (∀ (now : Int) (db : DB),
       List.Pairwise (fun a b : WeatherAlertRow =>
         createdAtDescLe a.createdAt b.createdAt = true)
         (getActiveWeatherAlerts now db) ∧
       (∀ a : WeatherAlertRow,
          a ∈ getActiveWeatherAlerts now db ↔
            (a ∈ db.weatherAlerts ∧ a.isActive = some true ∧
             ∃ v : Int, a.validUntil = some v ∧ now ≤ v))) ∧
    (∀ (id : String) (db : DB),
       (∀ a ∈ (deactivateWeatherAlert id db).weatherAlerts,
          a.id = id → a.isActive = some false) ∧
       (∀ (now : Int) (a : WeatherAlertRow),
          a ∈ getActiveWeatherAlerts now (deactivateWeatherAlert id db) →
          a.id ≠ id) ∧
       ((∀ a ∈ db.weatherAlerts, a.id ≠ id) → deactivateWeatherAlert id db = db) ∧
       (deactivateWeatherAlert id db).weatherAlerts.length
         = db.weatherAlerts.length) :=
  ⟨fun now db =>
    ⟨getActiveWeatherAlerts_sorted now db,
     fun a => mem_getActiveWeatherAlerts now db a⟩,
   fun id db =>
    ⟨deactivate_sets_false id db,
     fun now a ha => deactivate_not_active id db now a ha,
     deactivate_no_match id db,
     by simp [deactivateWeatherAlert]⟩⟩

/-- C10 (witness): on the concrete two-alert database at time 10, the
still-valid alert is returned, deactivating id `a1` leaves that row
inactive, and deactivating an id matching nothing changes nothing. -/
theorem weatherAlerts_lifecycle_witness :
    alertFresh ∈ getActiveWeatherAlerts 10 dbAlerts ∧
    ({ alertFresh with isActive := some false } : WeatherAlertRow).isActive
      = some false ∧
    deactivateWeatherAlert "zzz" dbAlerts = dbAlerts := by
  have T := weatherAlerts_lifecycle
  refine ⟨?_, ?_, ?_⟩
  · exact ((T.1 10 dbAlerts).2 alertFresh).mpr
      ⟨by decide, rfl, ⟨100, rfl, by decide⟩⟩
  · exact (T.2 "a1" dbAlerts).1 { alertFresh with isActive := some false }
      (by decide) rfl
  · exact (T.2 "zzz" dbAlerts).2.2.1 (by decide)

/-- C4 (counterexample): the `relief_distribution` table has a GET list
and a POST create endpoint but no PATCH update endpoint, so not every
one of the eight data tables carries the full GET/POST/PATCH triple. -/
theorem rest_surface_counterexample :
    hasCrudTriple DataTable.reliefDistribution = false ∧
    tableListPath DataTable.reliefDistribution = some "/api/relief-distribution" ∧
    hasRoute Method.GET "/api/relief-distribution" = true ∧
    hasRoute Method.POST "/api/relief-distribution" = true ∧
    hasRoute Method.PATCH "/api/relief-distribution/:id" = false := by
  decide

/-- C4 (amended): exactly four of the eight data tables (flood zones,
affected population, resources, response teams) expose the GET list /
POST create / PATCH update triple; relief distribution exposes only GET
and POST; weather alerts expose GET, POST and a DELETE (deactivation)
but no PATCH; the activity log exposes only GET; the users table has no
collection endpoint, only `GET /api/auth/user`. -/
theorem rest_surface_per_table :
    hasCrudTriple DataTable.floodZones = true ∧
    hasCrudTriple DataTable.affectedPopulation = true ∧
    hasCrudTriple DataTable.resources = true ∧
    hasCrudTriple DataTable.responseTeams = true ∧
    hasCrudTriple DataTable.users = false ∧
    hasCrudTriple DataTable.weatherAlerts = false ∧
    hasCrudTriple DataTable.activityLog = false ∧
    hasRoute Method.GET "/api/weather-alerts" = true ∧
    hasRoute Method.POST "/api/weather-alerts" = true ∧
    hasRoute Method.DELETE "/api/weather-alerts/:id" = true ∧
    hasRoute Method.PATCH "/api/weather-alerts/:id" = false ∧
    hasRoute Method.GET "/api/activities" = true ∧
    hasRoute Method.POST "/api/activities" = false ∧
    hasRoute Method.PATCH "/api/activities/:id" = false ∧
    hasRoute Method.GET "/api/auth/user" = true ∧
    tableListPath DataTable.users = none := by
  decide

/-- C5 (counterexample): a flood-zone creation body whose `riskLevel` is
the string "impossible" — outside the enumerated set high/medium/low —
passes `insertFloodZoneSchema` validation and is accepted by the POST
route (status 200); the enumerated sets exist only as comments in the
schema. -/
theorem create_validation_counterexample :
    parseInsertFloodZone (fzBody "impossible") = .ok (fzParsed "impossible") ∧
    postFloodZoneStatus (fzBody "impossible") false = 200 ∧
    "impossible" ∉ (["high", "medium", "low"] : List String) := by
  refine ⟨rfl, rfl, by decide⟩

/-- C5 (amended): server-side validation enforces the presence and
primitive type of the required fields — a create request missing a
required field (such as `name`, `type`, or `unit`) is rejected with a
500 — but the enumerated string fields are validated only as strings:
every string value of `riskLevel` is accepted. -/
theorem create_validation_characterization :
    (∀ body : RequestBody, getField body "name" = none →
       parseInsertFloodZone body = .error ()) ∧
    (∀ body : RequestBody, getField body "name" = none →
       ∀ b : Bool, postFloodZoneStatus body b = 500) ∧
    (∀ body : RequestBody, getField body "type" = none →
       parseInsertResource body = .error ()) ∧
    (∀ body : RequestBody, getField body "unit" = none →
       parseInsertResource body = .error ()) ∧
    (∀ s : String, parseInsertFloodZone (fzBody s) = .ok (fzParsed s) ∧
       postFloodZoneStatus (fzBody s) false = 200) := by
  refine ⟨?_, ?_, ?_, ?_, fun s => ⟨rfl, rfl⟩⟩
  · intro body h
    simp [parseInsertFloodZone, reqString, h, Bind.bind, Except.bind]
  · intro body h b
    have hp : parseInsertFloodZone body = .error () := by
      simp [parseInsertFloodZone, reqString, h, Bind.bind, Except.bind]
    simp [postFloodZoneStatus, hp]
  · intro body h
    have htype : reqString body "type" = .error () := by simp [reqString, h]
    cases hname : reqString body "name" with
    | error e => simp [parseInsertResource, Bind.bind, Except.bind, hname]
    | ok v => simp [parseInsertResource, Bind.bind, Except.bind, hname, htype]
  · intro body h
    have hunit : reqString body "unit" = .error () := by simp [reqString, h]
    cases hname : reqString body "name" with
    | error e => simp [parseInsertResource, Bind.bind, Except.bind, hname]
    | ok v =>
      cases htype : reqString body "type" with
      | error e => simp [parseInsertResource, Bind.bind, Except.bind, hname, htype]
      | ok w =>
        simp [parseInsertResource, Bind.bind, Except.bind, hname, htype, hunit]

/-- C5 (witness): the characterization applied to the empty body and to
a body holding only a `name`. -/
theorem create_validation_characterization_witness :
    parseInsertFloodZone [] = .error () ∧
    postFloodZoneStatus [] false = 500 ∧
    parseInsertResource nameOnlyBody = .error () ∧
    parseInsertFloodZone (fzBody "medium") = .ok (fzParsed "medium") := by
  have T := create_validation_characterization
  exact ⟨T.1 [] rfl, T.2.1 [] rfl false, T.2.2.1 nameOnlyBody rfl,
    (T.2.2.2.2 "medium").1⟩

/-- C6 (counterexample): the PATCH routes do distinguish a failure cause
with a status other than 500 — `PATCH /api/flood-zones/:id` answers 404
(not 500) when the update matches no row, without any error being
raised. -/
theorem error_handling_counterexample :
    (patchRoute "Failed to update flood zone" "Flood zone not found"
      (.ok (none : Option FloodZoneRow))).statusCode = 404 ∧
    (⟨Method.PATCH, "/api/flood-zones/:id", HandlerShape.patchShape⟩ : RouteEntry)
      ∈ routeTable ∧
    (404 : Nat) ≠ 500 ∧ (404 : Nat) ≠ 200 := by
  refine ⟨rfl, by decide, by decide, by decide⟩

/-- C6 (amended): on every route, any error raised while handling a
request — including a request body failing schema validation — is caught
and answered with status 500 and a JSON message; beyond this, the only
other failure status is the 404 of the four PATCH routes when the target
row does not exist, and every route answers within the statuses
200/404/500. -/
theorem error_handling_statuses :
    (∀ (α : Type) (msg : String),
       (listRoute msg (.error () : Except Unit α)).statusCode = 500) ∧
    (∀ (α β : Type) (msg : String) (create : α → Except Unit β),
       (createRoute msg (.error ()) create).statusCode = 500) ∧
    (∀ (α β : Type) (msg : String) (a : α),
       (createRoute (β := β) msg (.ok a) (fun _ => .error ())).statusCode = 500) ∧
    (∀ (α : Type) (fm nm : String),
       (patchRoute fm nm (.error () : Except Unit (Option α))).statusCode = 500 ∧
       (patchRoute fm nm (.ok (none : Option α))).statusCode = 404) ∧
    (∀ fetched : Except Unit OWResponse,
       (weatherRoute none fetched).1.statusCode = 500) ∧
    (∀ k : String, (weatherRoute (some k) (.error ())).1.statusCode = 500) ∧
    (∀ (α : Type) (msg : String) (o : Except Unit α),
       (listRoute msg o).statusCode = 200 ∨ (listRoute msg o).statusCode = 500) ∧
    (∀ (α β : Type) (msg : String) (p : Except Unit α) (create : α → Except Unit β),
       (createRoute msg p create).statusCode = 200 ∨
       (createRoute msg p create).statusCode = 500) ∧
    (∀ (α : Type) (fm nm : String) (o : Except Unit (Option α)),
       (patchRoute fm nm o).statusCode = 200 ∨
       (patchRoute fm nm o).statusCode = 404 ∨
       (patchRoute fm nm o).statusCode = 500) ∧
    (∀ (key : Option String) (fetched : Except Unit OWResponse),
       (weatherRoute key fetched).1.statusCode = 200 ∨
       (weatherRoute key fetched).1.statusCode = 500) ∧
    routeTable.filter (fun e => e.shape == HandlerShape.patchShape) =
      [⟨.PATCH, "/api/flood-zones/:id", .patchShape⟩,
       ⟨.PATCH, "/api/population/:id", .patchShape⟩,
       ⟨.PATCH, "/api/resources/:id", .patchShape⟩,
       ⟨.PATCH, "/api/response-teams/:id", .patchShape⟩] := by
  refine ⟨fun α msg => rfl, fun α β msg create => rfl, fun α β msg a => rfl,
    fun α fm nm => ⟨rfl, rfl⟩, fun fetched => rfl, fun k => rfl,
    ?_, ?_, ?_, ?_, by decide⟩
  · intro α msg o
    cases o with
    | ok a => exact Or.inl rfl
    | error e => exact Or.inr rfl
  · intro α β msg p create
    cases p with
    | error e => exact Or.inr rfl
    | ok a =>
      cases hc : create a with
      | error e => right; simp [createRoute, hc, ApiResult.statusCode]
      | ok b => left; simp [createRoute, hc, ApiResult.statusCode]
  · intro α fm nm o
    rcases o with e | a
    · exact Or.inr (Or.inr rfl)
    · cases a with
      | none => exact Or.inr (Or.inl rfl)
      | some x => exact Or.inl rfl
  · intro key fetched
    cases key with
    | none => exact Or.inr rfl
    | some k =>
      cases fetched with
      | error e => exact Or.inr rfl
      | ok w =>
        cases hw : w.weather with
        | nil => right; simp [weatherRoute, hw, ApiResult.statusCode]
        | cons d rest => left; simp [weatherRoute, hw, ApiResult.statusCode]

/-- C7: with an API key configured, `GET /api/weather/:location`
performs exactly one external HTTP call and, on a successful response,
answers 200 with an object holding exactly the five fields
`temperature`, `humidity`, `description`, `windSpeed` and `pressure`
taken from the external payload (`main.temp`, `main.humidity`,
`weather[0].description`, `wind.speed`, `main.pressure`); if the
external call does not succeed the route answers 500. -/
theorem weather_route_characterization :
    (∀ (k : String) (fetched : Except Unit OWResponse),
       (weatherRoute (some k) fetched).2 = 1) ∧
    (∀ (k : String) (w : OWResponse) (d : OWWeatherItem)
       (rest : List OWWeatherItem), w.weather = d :: rest →
       (weatherRoute (some k) (.ok w)).1 =
         .okJson { temperature := w.main.temp, humidity := w.main.humidity,
                   description := d.description, windSpeed := w.wind.speed,
                   pressure := w.main.pressure }) ∧
    (∀ k : String, (weatherRoute (some k) (.error ())).1.statusCode = 500) := by
  refine ⟨?_, ?_, fun k => rfl⟩
  · intro k fetched
    cases fetched with
    | error e => rfl
    | ok w =>
      cases hw : w.weather with
      | nil => simp [weatherRoute, hw]
      | cons d rest => simp [weatherRoute, hw]
  · intro k w d rest hw
    simp [weatherRoute, hw]

/-- C7 (witness): the weather route applied to a concrete successful
OpenWeatherMap payload. -/
theorem weather_route_characterization_witness :
    (weatherRoute (some "key") (.ok exOWResponse)).2 = 1 ∧
    (weatherRoute (some "key") (.ok exOWResponse)).1 =
      .okJson { temperature := 30, humidity := 80, description := "light rain",
                windSpeed := 4, pressure := 1005 } ∧
    (weatherRoute (some "key") (.error ())).1.statusCode = 500 := by
  have T := weather_route_characterization
  exact ⟨T.1 "key" (.ok exOWResponse),
    T.2.1 "key" exOWResponse { description := "light rain" } [] rfl,
    T.2.2 "key"⟩

/-- C8: `FloodMap` renders one circle per fetched flood zone, centered
at the zone's stored latitude and longitude with the zone's stored
radius, and colors it (stroke and fill alike) by the zone's risk level:
`#dc2626` (red) for "high", `#ea580c` (orange) for "medium", `#16a34a`
(green) for "low", and `#6b7280` (gray) otherwise. -/
theorem flood_map_circles_characterization :
    (∀ zones : List FloodZoneRow, (floodMapCircles zones).length = zones.length) ∧
    (∀ (zones : List FloodZoneRow) (z : FloodZoneRow), z ∈ zones →
       ({ centerLat := z.latitude, centerLng := z.longitude, radius := z.radius,
          color := getRiskColor z.riskLevel, fillColor := getRiskColor z.riskLevel,
          fillOpacity := 3 / 10 } : MapCircleProps) ∈ floodMapCircles zones) ∧
    (∀ (zones : List FloodZoneRow) (c : MapCircleProps),
       c ∈ floodMapCircles zones → ∃ z ∈ zones,
         c = { centerLat := z.latitude, centerLng := z.longitude,
               radius := z.radius, color := getRiskColor z.riskLevel,
               fillColor := getRiskColor z.riskLevel, fillOpacity := 3 / 10 }) ∧
    (getRiskColor "high" = "#dc2626" ∧ getRiskColor "medium" = "#ea580c" ∧
     getRiskColor "low" = "#16a34a") ∧
    (∀ r : String, r ≠ "high" → r ≠ "medium" → r ≠ "low" →
       getRiskColor r = "#6b7280") := by
  refine ⟨fun zones => by simp [floodMapCircles], ?_, ?_, ⟨rfl, rfl, rfl⟩, ?_⟩
  · intro zones z hz
    exact List.mem_map.mpr ⟨z, hz, rfl⟩
  · intro zones c hc
    obtain ⟨z, hz, hzc⟩ := List.mem_map.mp hc
    exact ⟨z, hz, hzc.symm⟩
  · intro r h1 h2 h3
    simp [getRiskColor, h1, h2, h3]

/-- C8 (witness): the characterization applied to the one-zone list
holding the concrete high-risk zone, and to the risk level "unknown". -/
theorem flood_map_circles_characterization_witness :
    ({ centerLat := 9, centerLng := 76, radius := 500,
       color := getRiskColor "high", fillColor := getRiskColor "high",
       fillOpacity := 3 / 10 } : MapCircleProps) ∈ floodMapCircles [exZone] ∧
    getRiskColor "unknown" = "#6b7280" := by
  have T := flood_map_circles_characterization
  exact ⟨T.2.1 [exZone] exZone (by decide),
    T.2.2.2.2 "unknown" (by decide) (by decide) (by decide)⟩

end Flogate
